import Mathlib

set_option autoImplicit false

namespace AntaresDevKit

/-!  Shallow embedding of the ANTARES filter development kit notebook
(`AntaresFilterDevKit.ipynb`) and of the filter-execution contract it
exercises.  The notebook's own code — the example science filters
`high_snr`, `extragalactic`, `nuclear_transient`, `in_m31` and the batch
driver `run_many` — is embedded directly from the source.  The `LocusData`
facade and the driver `run_stage` live in the external `antares` package,
which is not part of the repository; those are modelled from the spec, as
marked in their doc comments.  Python floats are modelled as exact
rationals, Python dicts as association lists with unique keys maintained
by upsert. -/

/-- A Python runtime value as it appears in alert properties: the three
scalar kinds (`int`, `float`, `str`), Python's `None`, and (non-scalar)
lists, encoded as cons cells (`listNil`/`listCons`) so that equality stays
decidable.  Floats are modelled as exact rationals. -/
inductive PyValue where
  | int (i : Int)
  | float (q : ℚ)
  | str (s : String)
  | pynone
  | listNil
  | listCons (head tail : PyValue)
deriving DecidableEq

/-- Python-level exceptions a filter body can raise. -/
inductive PyErr where
  | keyError (k : String)
  | typeError
  | zeroDivisionError
deriving DecidableEq

/-- The error kinds of the filter execution contract (spec §7). -/
inductive FilterErr where
  | unknownFieldError (field : String)
  | invalidPropertyTypeError
  | unknownStreamError (stream : String)
  | filterExecutionError (cause : PyErr)
deriving DecidableEq

/-- First-match lookup in an association list (Python dict read). -/
def pyLookup : List (String × PyValue) → String → Option PyValue
  | [], _ => Option.none
  | p :: t, k => if p.1 = k then some p.2 else pyLookup t k

/-- Python dict write: replace the first entry with the given key in
place, or append a new entry when the key is absent. -/
def upsert : List (String × PyValue) → String → PyValue → List (String × PyValue)
  | [], k, v => [(k, v)]
  | p :: t, k, v => if p.1 = k then (k, v) :: t else p :: upsert t k v

/-- One row of an object's time-ordered history (spec §3 "Measurement"):
the two reserved fields — originating event id (`alert_id`) and
observation timestamp (`mjd`) — plus a mapping from field name to value.
-/
structure Measurement where
  alert_id : Int
  mjd : ℚ
  fields : List (String × PyValue)
deriving DecidableEq

/-- Value of a field of a measurement, the two reserved fields included;
`Option.none` is the explicit missing marker of spec §4.1. -/
def measField (m : Measurement) (f : String) : Option PyValue :=
  if f = "alert_id" then some (PyValue.int m.alert_id)
  else if f = "mjd" then some (PyValue.float m.mjd)
  else pyLookup m.fields f

/-- The upstream data for one object identifier (spec §6 "Upstream data
source"): the triggering measurement, the measurement history in arrival
order (timestamp-ascending, ties broken by event id), and the raw
per-catalog match lists, possibly empty. -/
structure RawLocus where
  current : Measurement
  history : List Measurement
  catalog_matches : List (String × List (List (String × PyValue)))
deriving DecidableEq

/-- The per-invocation execution context (the `LocusData` object of the
notebook): the assembled read-only view plus the two mutable output
collections. -/
structure LocusData where
  current : Measurement
  history : List Measurement
  catalog_matches : List (String × List (List (String × PyValue)))
  new_properties : List (String × PyValue)
  new_streams : List String
deriving DecidableEq

/-- Modelled from the spec: `LocusData.get_properties` of the external
`antares` package — the union of the current measurement's fields
(reserved fields first) with the custom properties already set in this
invocation, later writes overriding. -/
def get_properties (ld : LocusData) : List (String × PyValue) :=
  ld.new_properties.foldl (fun acc p => upsert acc p.1 p.2)
    (("alert_id", PyValue.int ld.current.alert_id)
      :: ("mjd", PyValue.float ld.current.mjd)
      :: ld.current.fields)

/-- Modelled from the spec: `LocusData.get_astro_object_matches` of the
external `antares` package — returns the precomputed catalog match set
unchanged. -/
def get_astro_object_matches (ld : LocusData) :
    List (String × List (List (String × PyValue))) :=
  ld.catalog_matches

/-- Modelled from the spec: `LocusData.send_to_stream` of the external
`antares` package — idempotent insert into the per-invocation output
stream set (duplicate requests collapse). -/
def send_to_stream (ld : LocusData) (stream_name : String) : LocusData :=
  if stream_name ∈ ld.new_streams then ld
  else { ld with new_streams := ld.new_streams ++ [stream_name] }

/-- Is the value of one of the three property scalar kinds
(`int`, `float`, `str`)? -/
def isScalarValue : PyValue → Bool
  | .int _ => true
  | .float _ => true
  | .str _ => true
  | _ => false

/-- Modelled from the spec: `LocusData.set_property` of the external
`antares` package — upsert into the per-invocation output property
mapping when the value is scalar; `InvalidPropertyTypeError` otherwise,
leaving the context unchanged. -/
def set_property (ld : LocusData) (name : String) (value : PyValue) :
    LocusData × Option FilterErr :=
  if isScalarValue value then
    ({ ld with new_properties := upsert ld.new_properties name value },
      Option.none)
  else (ld, some FilterErr.invalidPropertyTypeError)

/-- Does the measurement satisfy every equality of the filters mapping?
Exact comparison with no type coercion: a missing field or a stored-type
mismatch compares as not-equal and never raises (spec §4.1). -/
def measurementMatches (filters : List (String × PyValue)) (m : Measurement) :
    Bool :=
  filters.all fun pr => decide (measField m pr.1 = some pr.2)

/-- The measurements of the history kept by a `get_time_series` call with
the given filters mapping, in arrival order. -/
def selectedMeasurements (ld : LocusData) (filters : List (String × PyValue)) :
    List Measurement :=
  ld.history.filter (measurementMatches filters)

/-- Is the field name known for this object: reserved, or present in some
measurement of the history? -/
def knownField (ld : LocusData) (f : String) : Bool :=
  f == "alert_id" || f == "mjd"
    || ld.history.any (fun m => m.fields.any (fun pr => pr.1 == f))

/-- One table row: a field's value in each kept measurement, in order,
`Option.none` marking an explicitly missing cell. -/
def projectField (ms : List Measurement) (f : String) : List (Option PyValue) :=
  ms.map (fun m => measField m f)

/-- The tabular result of `get_time_series`: one row per field name, the
two reserved fields prepended first, one cell per kept measurement. -/
def mkTable (ms : List Measurement) (field_names : List String) :
    List (String × List (Option PyValue)) :=
  ("alert_id" :: "mjd" :: field_names).map (fun f => (f, projectField ms f))

/-- Modelled from the spec: `LocusData.get_time_series` of the external
`antares` package — project the measurement history onto the requested
fields, the two reserved fields always first, keeping only measurements
that satisfy every filter equality; `UnknownFieldError` when a requested
field is not present in any known measurement or the reserved set. -/
def get_time_series (ld : LocusData) (field_names : List String)
    (filters : List (String × PyValue)) :
    Except FilterErr (List (String × List (Option PyValue))) :=
  match field_names.find? (fun f => !knownField ld f) with
  | some f => .error (.unknownFieldError f)
  | Option.none => .ok (mkTable (selectedMeasurements ld filters) field_names)

/-- Modelled from the spec: `get_locus_data` of `antares.dev_kit` —
assemble a fresh execution context for an identifier from upstream data,
with empty output collections; a catalog with no matches is absent from
the catalog match set (never present with an empty sequence). -/
def get_locus_data (db : Int → RawLocus) (alert_id : Int) : LocusData :=
  { current := (db alert_id).current
    history := (db alert_id).history
    catalog_matches :=
      (db alert_id).catalog_matches.filter (fun pr => !pr.2.isEmpty)
    new_properties := []
    new_streams := [] }

/-- One value of the report dict returned by `run_stage`. -/
inductive ReportValue where
  | props (m : List (String × PyValue))
  | streams (s : List String)
  | locus (ld : LocusData)
deriving DecidableEq

/-- The report dict returned by `run_stage`. -/
abbrev Report := List (String × ReportValue)

/-- Modelled from the spec: `run_stage` of `antares.dev_kit` — build a
fresh context for the identifier, invoke the filter on it exactly once
synchronously, and return the report dict with exactly the keys
`new_properties`, `new_streams` and `locus_data` (the execution context);
a filter that raises yields a `FilterExecutionError` wrapping the cause.
-/
def run_stage (db : Int → RawLocus) (alert_id : Int)
    (f : LocusData → Except PyErr LocusData) : Except FilterErr Report :=
  match f (get_locus_data db alert_id) with
  | .ok ld =>
      .ok [("new_properties", ReportValue.props ld.new_properties),
           ("new_streams", ReportValue.streams ld.new_streams),
           ("locus_data", ReportValue.locus ld)]
  | .error e => .error (.filterExecutionError e)

/-- Embedded from the notebook: `run_many(f, n)`, the list comprehension
`[run_stage(alert_id, f) for alert_id in get_alert_ids(n)]`; the alert
ids fetched by `get_alert_ids` are taken as a parameter. -/
def run_many (db : Int → RawLocus) (f : LocusData → Except PyErr LocusData)
    (ids : List Int) : List (Except FilterErr Report) :=
  ids.map (fun alert_id => run_stage db alert_id f)

/-- Python dict subscription `p[k]`: `KeyError` when the key is absent. -/
def pyGetItem (p : List (String × PyValue)) (k : String) :
    Except PyErr PyValue :=
  match pyLookup p k with
  | some v => .ok v
  | Option.none => .error (.keyError k)

/-- Numeric view of a Python value (an `int` or a `float`). -/
def toNum : PyValue → Option ℚ
  | .int i => some (i : ℚ)
  | .float q => some q
  | _ => Option.none

/-- Python true division `a / b`: `TypeError` on a non-numeric operand,
`ZeroDivisionError` on a zero divisor. -/
def pyDiv (a b : PyValue) : Except PyErr ℚ :=
  match toNum a, toNum b with
  | some x, some y =>
      if y = 0 then .error .zeroDivisionError else .ok (x / y)
  | _, _ => .error .typeError

/-- Python comparison `a < b`: `TypeError` unless both operands are
numeric. -/
def pyLt (a b : PyValue) : Except PyErr Bool :=
  match toNum a, toNum b with
  | some x, some y => .ok (decide (x < y))
  | _, _ => .error .typeError

/-- Python subtraction `a - b`: exact on ints, numeric otherwise,
`TypeError` on a non-numeric operand. -/
def pySub (a b : PyValue) : Except PyErr PyValue :=
  match a, b with
  | .int x, .int y => .ok (.int (x - y))
  | a, b =>
      match toNum a, toNum b with
      | some x, some y => .ok (.float (x - y))
      | _, _ => .error .typeError

/-- Embedded from the notebook: `{1: 50.0, 2: 55.0}.get(fid, None)` —
Python dict lookup with Python's numeric key equality (the int keys `1`
and `2` also match the floats `1.0` and `2.0`). -/
def snr_thresholds_get (fid : PyValue) : Option ℚ :=
  match toNum fid with
  | some x =>
      if x = 1 then some 50 else if x = 2 then some 55 else Option.none
  | Option.none => Option.none

/-- Embedded from the notebook: science filter `high_snr` — send high-SNR
alerts to stream 'high_snr', thresholding `snr = 1.0 / ztf_sigmapsf`
against a per-passband threshold. -/
def high_snr (ld : LocusData) : Except PyErr LocusData := do
  let p := get_properties ld
  let fid ← pyGetItem p ("ztf_fid")
  let sigmapsf ← pyGetItem p ("ztf_sigmapsf")
  let snr ← pyDiv (PyValue.float 1) sigmapsf
  match snr_thresholds_get fid with
  | some snr_threshold =>
      if snr > snr_threshold then pure (send_to_stream ld ("high_snr"))
      else pure ld
  | Option.none => pure ld

/-- Embedded from the notebook: science filter `extragalactic` — send the
alert to stream 'extragalactic' if it matches any extended source
catalog. -/
def extragalactic (ld : LocusData) : Except PyErr LocusData := do
  let matching_catalog_names := (get_astro_object_matches ld).map Prod.fst
  let xsc_cats := ["2mass_xsc", "ned", "nyu_valueadded_gals", "sdss_gals",
    "veron_agn_qso"]
  if matching_catalog_names.any (fun c => xsc_cats.contains c) then
    pure (send_to_stream ld ("extragalactic"))
  else pure ld

/-- Embedded from the notebook: science filter `nuclear_transient` —
requires all five of the looked-up properties non-None and
`distnr < 0.6 and distpsnr < 1. and sgscore < 0.3 and magpsf - magnr
< 1.5`, with Python's short-circuit `and`. -/
def nuclear_transient (ld : LocusData) : Except PyErr LocusData := do
  let p := get_properties ld
  let sgscore ← pyGetItem p ("ztf_sgscore1")
  let distpsnr ← pyGetItem p ("ztf_distpsnr1")
  let magpsf ← pyGetItem p ("ztf_magpsf")
  let magnr ← pyGetItem p ("ztf_magnr")
  let distnr ← pyGetItem p ("ztf_distnr")
  if distnr = PyValue.pynone ∨ distpsnr = PyValue.pynone
      ∨ sgscore = PyValue.pynone ∨ magpsf = PyValue.pynone
      ∨ magnr = PyValue.pynone then
    pure ld
  else do
    let b1 ← pyLt distnr (PyValue.float 0.6)
    if b1 then do
      let b2 ← pyLt distpsnr (PyValue.float 1)
      if b2 then do
        let b3 ← pyLt sgscore (PyValue.float 0.3)
        if b3 then do
          let diff ← pySub magpsf magnr
          let b4 ← pyLt diff (PyValue.float 1.5)
          if b4 then pure (send_to_stream ld ("nuclear_transient"))
          else pure ld
        else pure ld
      else pure ld
    else pure ld

/-- Embedded from the notebook: science filter `in_m31` — send alerts to
stream 'in_m31' if the alert is within a 2-square-degree box centered on
M31, with the chained strict comparisons
`ra_max > ra > ra_min and dec_max > dec > dec_min`. -/
def in_m31 (ld : LocusData) : Except PyErr LocusData := do
  let ra_max : ℚ := 11.434793
  let ra_min : ℚ := 9.934793
  let dec_max : ℚ := 42.269065
  let dec_min : ℚ := 40.269065
  let p := get_properties ld
  let ra ← pyGetItem p ("ra")
  let dec ← pyGetItem p ("dec")
  let b1 ← pyLt ra (PyValue.float ra_max)
  if b1 then do
    let b2 ← pyLt (PyValue.float ra_min) ra
    if b2 then do
      let b3 ← pyLt dec (PyValue.float dec_max)
      if b3 then do
        let b4 ← pyLt (PyValue.float dec_min) dec
        if b4 then pure (send_to_stream ld ("in_m31"))
        else pure ld
      else pure ld
    else pure ld
  else pure ld

/-! ### Helper lemmas about dict upsert -/

theorem pyLookup_upsert_self (l : List (String × PyValue)) (k : String)
    (v : PyValue) : pyLookup (upsert l k v) k = some v := by
  induction l with
  | nil => simp [upsert, pyLookup]
  | cons p t ih =>
      by_cases hp : p.1 = k
      · simp [upsert, hp, pyLookup]
      · simp [upsert, hp, pyLookup, ih]

theorem countP_upsert (l : List (String × PyValue)) (k : String) (v : PyValue) :
    (upsert l k v).countP (fun pr => pr.1 == k) =
      if l.countP (fun pr => pr.1 == k) = 0 then 1
      else l.countP (fun pr => pr.1 == k) := by
  induction l with
  | nil => simp [upsert]
  | cons p t ih =>
      by_cases hp : p.1 = k
      · simp [upsert, hp, List.countP_cons]
      · simp only [upsert, hp, if_false, List.countP_cons, ih]
        by_cases ht : t.countP (fun pr => pr.1 == k) = 0 <;>
          simp [ht, hp]

theorem countP_key_le_one_of_nodup (l : List (String × PyValue)) (k : String)
    (h : (l.map Prod.fst).Nodup) :
    l.countP (fun pr => pr.1 == k) ≤ 1 := by
  induction l with
  | nil => simp
  | cons p t ih =>
      rw [List.map_cons, List.nodup_cons] at h
      by_cases hp : p.1 = k
      · have ht : t.countP (fun pr => pr.1 == k) = 0 := by
          rw [List.countP_eq_zero]
          intro a ha hak
          exact h.1 (by
            rw [show p.1 = a.1 by rw [hp, (by simpa using hak : a.1 = k)]]
            exact List.mem_map_of_mem Prod.fst ha)
        simp [List.countP_cons, hp, ht]
      · simpa [List.countP_cons, hp] using ih h.2

/-! ### Concrete fixtures used by the witnesses -/

/-- A concrete first measurement (the spec §8 scenario's first row). -/
def sampleMeasurement1 : Measurement :=
  { alert_id := 1, mjd := 100,
    fields := [("ztf_fid", PyValue.int 1), ("ztf_mag", PyValue.float 18)] }

/-- A concrete second measurement (the spec §8 scenario's second row). -/
def sampleMeasurement2 : Measurement :=
  { alert_id := 2, mjd := 101,
    fields := [("ztf_fid", PyValue.int 2), ("ztf_mag", PyValue.float 17.5)] }

/-- A concrete upstream locus: two measurements, one catalog with a match
and one catalog with an empty match list. -/
def sampleRaw : RawLocus :=
  { current := sampleMeasurement2,
    history := [sampleMeasurement1, sampleMeasurement2],
    catalog_matches :=
      [("ned", [[("name", PyValue.str "m31")]]), ("sdss_gals", [])] }

/-- A concrete upstream database: every identifier maps to `sampleRaw`
with the identifier recorded on the current measurement. -/
def sampleDb : Int → RawLocus := fun alert_id =>
  { sampleRaw with current := { sampleRaw.current with alert_id := alert_id } }

/-- A concrete well-behaved filter: sends the alert to 'my_stream'. -/
def sampleStreamFilter (ld : LocusData) : Except PyErr LocusData :=
  Except.ok (send_to_stream ld ("my_stream"))

/-- A concrete faulting filter: raises a `TypeError` exactly on the
object whose identifier is 2. -/
def sampleFaultyFilter (ld : LocusData) : Except PyErr LocusData :=
  if ld.current.alert_id = 2 then Except.error PyErr.typeError
  else Except.ok ld

/-! ### C1 -/

/-- C1: for every alert identifier and filter function, `run_stage`
invokes the filter exactly once on the freshly assembled context and
returns a report dict holding that single invocation's outputs, whose
keys are exactly `new_properties`, `new_streams` and `locus_data` (the
execution context). -/
theorem run_stage_single_invocation_report (db : Int → RawLocus)
    (alert_id : Int) (f : LocusData → Except PyErr LocusData)
    (ld : LocusData) (h : f (get_locus_data db alert_id) = Except.ok ld) :
    run_stage db alert_id f =
      Except.ok [("new_properties", ReportValue.props ld.new_properties),
        ("new_streams", ReportValue.streams ld.new_streams),
        ("locus_data", ReportValue.locus ld)] ∧
    (∀ r : Report, run_stage db alert_id f = Except.ok r →
      r.map Prod.fst = ["new_properties", "new_streams", "locus_data"]) := by
  refine ⟨by simp [run_stage, h], ?_⟩
  intro r hr
  rw [run_stage, h] at hr
  cases hr
  rfl

/-- Witness for C1 at the notebook's alert id 153505 and a concrete
filter that requests 'my_stream'. -/
theorem run_stage_single_invocation_report_witness :
    sampleStreamFilter (get_locus_data sampleDb 153505) =
      Except.ok (send_to_stream (get_locus_data sampleDb 153505)
        ("my_stream")) ∧
    run_stage sampleDb 153505 sampleStreamFilter =
      Except.ok [("new_properties", ReportValue.props
          (send_to_stream (get_locus_data sampleDb 153505)
            ("my_stream")).new_properties),
        ("new_streams", ReportValue.streams
          (send_to_stream (get_locus_data sampleDb 153505)
            ("my_stream")).new_streams),
        ("locus_data", ReportValue.locus
          (send_to_stream (get_locus_data sampleDb 153505)
            ("my_stream")))] :=
  ⟨rfl, (run_stage_single_invocation_report sampleDb 153505
    sampleStreamFilter _ rfl).1⟩

/-! ### C2 -/

/-- C2: `run_many` returns one result per identifier, index-aligned with
the input order, each entry the report of an isolated `run_stage`
invocation of its own identifier only; an identifier whose filter raises
carries a `FilterExecutionError` wrapping the cause at its own index,
leaving every other index's report untouched. -/
theorem run_many_index_aligned (db : Int → RawLocus)
    (f : LocusData → Except PyErr LocusData) (ids : List Int) :
    (run_many db f ids).length = ids.length ∧
    (∀ i : Nat, (run_many db f ids)[i]? =
      (ids[i]?).map (fun alert_id => run_stage db alert_id f)) ∧
    (∀ i : Nat, ∀ e : PyErr,
      (ids[i]?).map (fun alert_id => f (get_locus_data db alert_id)) =
        some (Except.error e) →
      (run_many db f ids)[i]? =
        some (Except.error (FilterErr.filterExecutionError e))) := by
  refine ⟨by simp [run_many], fun i => by simp [run_many], ?_⟩
  intro i e h
  cases hio : ids[i]? with
  | none => rw [hio] at h; cases h
  | some a =>
      rw [hio] at h
      have ha : f (get_locus_data db a) = Except.error e := by simpa using h
      simp [run_many, hio, run_stage, ha]

/-- Witness for C2: the spec §8 batch scenario — identifiers `[1, 2, 3]`
with a filter that raises on identifier 2: the batch has length 3 and
index 1 carries the wrapped error. -/
theorem run_many_index_aligned_witness :
    ([(1 : Int), 2, 3][1]?).map
        (fun alert_id => sampleFaultyFilter (get_locus_data sampleDb alert_id)) =
      some (Except.error PyErr.typeError) ∧
    (run_many sampleDb sampleFaultyFilter [1, 2, 3]).length = 3 ∧
    (run_many sampleDb sampleFaultyFilter [1, 2, 3])[1]? =
      some (Except.error (FilterErr.filterExecutionError PyErr.typeError)) ∧
    (run_many sampleDb sampleFaultyFilter [1, 2, 3])[0]? =
      some (run_stage sampleDb 1 sampleFaultyFilter) ∧
    (run_many sampleDb sampleFaultyFilter [1, 2, 3])[2]? =
      some (run_stage sampleDb 3 sampleFaultyFilter) := by
  refine ⟨rfl, ?_, ?_, ?_, ?_⟩
  · exact (run_many_index_aligned sampleDb sampleFaultyFilter [1, 2, 3]).1
  · exact (run_many_index_aligned sampleDb sampleFaultyFilter
      [1, 2, 3]).2.2 1 PyErr.typeError rfl
  · exact (run_many_index_aligned sampleDb sampleFaultyFilter
      [1, 2, 3]).2.1 0
  · exact (run_many_index_aligned sampleDb sampleFaultyFilter
      [1, 2, 3]).2.1 2

/-! ### C5 -/

/-- C5: `set_property` fails with `InvalidPropertyTypeError` and leaves
the context (hence `new_properties`) unchanged whenever the value's kind
is not one of int, float or string, and succeeds — upserting the value —
for every value of one of the three scalar kinds. -/
theorem set_property_scalar_check (ld : LocusData) (name : String)
    (value : PyValue) :
    (isScalarValue value = false →
      set_property ld name value =
        (ld, some FilterErr.invalidPropertyTypeError)) ∧
    (isScalarValue value = true →
      (set_property ld name value).2 = Option.none ∧
      (set_property ld name value).1 =
        { ld with new_properties := upsert ld.new_properties name value }) := by
  constructor <;> intro h <;> simp [set_property, h]

/-- Witness for C5: the spec §8 scenario — `set_property('x', [1, 2])`
fails with `InvalidPropertyTypeError` and leaves the context unchanged,
while the scalar `set_property('x', 500)` succeeds. -/
theorem set_property_scalar_check_witness :
    isScalarValue (PyValue.listCons (PyValue.int 1)
      (PyValue.listCons (PyValue.int 2) PyValue.listNil)) = false ∧
    set_property (get_locus_data sampleDb 153505) ("x")
        (PyValue.listCons (PyValue.int 1)
          (PyValue.listCons (PyValue.int 2) PyValue.listNil)) =
      (get_locus_data sampleDb 153505,
        some FilterErr.invalidPropertyTypeError) ∧
    isScalarValue (PyValue.int 500) = true ∧
    (set_property (get_locus_data sampleDb 153505) ("x")
      (PyValue.int 500)).2 = Option.none :=
  ⟨rfl,
    (set_property_scalar_check (get_locus_data sampleDb 153505) "x" _).1 rfl,
    rfl,
    ((set_property_scalar_check (get_locus_data sampleDb 153505) "x"
      (PyValue.int 500)).2 rfl).1⟩

/-! ### C6 -/

/-- C6: in every execution context the driver assembles, the mapping
returned by `get_astro_object_matches` holds only non-empty match
sequences, and a catalog name is among its keys exactly when the upstream
data has at least one match for that catalog — a catalog with no matches
is absent, never present with an empty sequence. -/
theorem get_astro_object_matches_nonempty (db : Int → RawLocus)
    (alert_id : Int) (c : String) :
    ((get_astro_object_matches (get_locus_data db alert_id)).all
      (fun pr => !pr.2.isEmpty)) = true ∧
    ((c ∈ (get_astro_object_matches (get_locus_data db alert_id)).map
        Prod.fst) ↔
      (∃ rs, (c, rs) ∈ (db alert_id).catalog_matches ∧ rs ≠ [])) := by
  constructor
  · simp only [get_astro_object_matches, get_locus_data, List.all_eq_true]
    intro pr hpr
    exact (List.mem_filter.mp hpr).2
  · simp only [get_astro_object_matches, get_locus_data, List.mem_map,
      List.mem_filter]
    constructor
    · rintro ⟨⟨a, b⟩, ⟨hmem, hne⟩, rfl⟩
      exact ⟨b, hmem, by simpa using hne⟩
    · rintro ⟨rs, hmem, hne⟩
      exact ⟨(c, rs), ⟨hmem, by simpa using hne⟩, rfl⟩

/-- Witness for C6 at the concrete sample upstream locus: the catalog
'ned' has one match and is a key; the catalog 'sdss_gals' has an empty
raw match list and is absent. -/
theorem get_astro_object_matches_nonempty_witness :
    (((get_astro_object_matches (get_locus_data sampleDb 153505)).all
      (fun pr => !pr.2.isEmpty)) = true ∧
    ((("ned" : String) ∈ (get_astro_object_matches
        (get_locus_data sampleDb 153505)).map Prod.fst) ↔
      (∃ rs, (("ned" : String), rs) ∈ (sampleDb 153505).catalog_matches ∧
        rs ≠ []))) ∧
    (("sdss_gals" : String) ∈ (get_astro_object_matches
        (get_locus_data sampleDb 153505)).map Prod.fst) = False :=
  ⟨get_astro_object_matches_nonempty sampleDb 153505 "ned",
    by simp [get_astro_object_matches, get_locus_data, sampleDb, sampleRaw]⟩

/-! ### C3 -/

/-- C3: for every object with at least two measurements in its history,
`get_time_series` with no field filter succeeds with a table in which
every row has one cell per measurement of the history, and whose rows are
headed by the two reserved fields (event id, then timestamp) before the
requested fields, whatever those are. -/
theorem get_time_series_unfiltered_shape (ld : LocusData)
    (field_names : List String)
    (hknown : field_names.find? (fun f => !knownField ld f) = Option.none)
    (hlen : 2 ≤ ld.history.length) :
    get_time_series ld field_names [] =
      Except.ok (mkTable ld.history field_names) ∧
    (mkTable ld.history field_names).map Prod.fst =
      "alert_id" :: "mjd" :: field_names ∧
    ∀ row ∈ mkTable ld.history field_names,
      row.2.length = ld.history.length := by
  have hsel : selectedMeasurements ld [] = ld.history := by
    simp [selectedMeasurements, measurementMatches]
  refine ⟨by simp [get_time_series, hknown, hsel], ?_, ?_⟩
  · simp [mkTable, Function.comp_def]
  · intro row hrow
    rw [mkTable, List.mem_map] at hrow
    obtain ⟨fname, _, rfl⟩ := hrow
    simp [projectField]

/-- Witness for C3 at the spec §8 scenario: two measurements, requested
fields `['ztf_fid', 'ztf_mag']`. -/
theorem get_time_series_unfiltered_shape_witness :
    (["ztf_fid", "ztf_mag"].find?
      (fun f => !knownField (get_locus_data sampleDb 153505) f)) =
        Option.none ∧
    2 ≤ (get_locus_data sampleDb 153505).history.length ∧
    (get_time_series (get_locus_data sampleDb 153505)
        ["ztf_fid", "ztf_mag"] [] =
      Except.ok (mkTable (get_locus_data sampleDb 153505).history
        ["ztf_fid", "ztf_mag"]) ∧
    (mkTable (get_locus_data sampleDb 153505).history
        ["ztf_fid", "ztf_mag"]).map Prod.fst =
      "alert_id" :: "mjd" :: ["ztf_fid", "ztf_mag"] ∧
    ∀ row ∈ mkTable (get_locus_data sampleDb 153505).history
        ["ztf_fid", "ztf_mag"],
      row.2.length = (get_locus_data sampleDb 153505).history.length) :=
  ⟨rfl, by simp [get_locus_data, sampleDb, sampleRaw],
    get_time_series_unfiltered_shape (get_locus_data sampleDb 153505)
      ["ztf_fid", "ztf_mag"] rfl
      (by simp [get_locus_data, sampleDb, sampleRaw])⟩

/-! ### C4 -/

/-- C4: for every filters mapping, `get_time_series` keeps exactly the
measurements in which every listed field is present and equals the given
value exactly — comparison is pure equality on stored values, so a
stored-type mismatch is merely not-equal and never raises — and the
returned table is the projection of exactly those kept measurements. -/
theorem get_time_series_filter_exact (ld : LocusData)
    (field_names : List String) (filters : List (String × PyValue))
    (hknown : field_names.find? (fun f => !knownField ld f) = Option.none) :
    get_time_series ld field_names filters =
      Except.ok (mkTable (selectedMeasurements ld filters) field_names) ∧
    ∀ m : Measurement,
      m ∈ selectedMeasurements ld filters ↔
        (m ∈ ld.history ∧ ∀ pr ∈ filters, measField m pr.1 = some pr.2) := by
  refine ⟨by simp [get_time_series, hknown], ?_⟩
  intro m
  simp [selectedMeasurements, List.mem_filter, measurementMatches,
    List.all_eq_true]

/-- Witness for C4 at the notebook's example `filters={'ztf_fid': 2}`:
only the second sample measurement is kept. -/
theorem get_time_series_filter_exact_witness :
    (["ztf_fid", "ztf_mag"].find?
      (fun f => !knownField (get_locus_data sampleDb 153505) f)) =
        Option.none ∧
    (get_time_series (get_locus_data sampleDb 153505)
        ["ztf_fid", "ztf_mag"] [("ztf_fid", PyValue.int 2)] =
      Except.ok (mkTable
        (selectedMeasurements (get_locus_data sampleDb 153505)
          [("ztf_fid", PyValue.int 2)])
        ["ztf_fid", "ztf_mag"]) ∧
    ∀ m : Measurement,
      m ∈ selectedMeasurements (get_locus_data sampleDb 153505)
          [("ztf_fid", PyValue.int 2)] ↔
        (m ∈ (get_locus_data sampleDb 153505).history ∧
          ∀ pr ∈ [("ztf_fid", PyValue.int 2)],
            measField m pr.1 = some pr.2)) :=
  ⟨rfl, get_time_series_filter_exact (get_locus_data sampleDb 153505)
    ["ztf_fid", "ztf_mag"] [("ztf_fid", PyValue.int 2)] rfl⟩

/-! ### C7 -/

/-- C7: within one invocation, calling `set_property` twice with the same
name leaves exactly one entry for that name in `new_properties`, holding
the value of the second call — the upsert's last write wins. -/
theorem set_property_last_write_wins (ld : LocusData) (n : String)
    (v1 v2 : PyValue) (h1 : isScalarValue v1 = true)
    (h2 : isScalarValue v2 = true)
    (hnd : (ld.new_properties.map Prod.fst).Nodup) :
    ((set_property ((set_property ld n v1).1) n
        v2).1.new_properties.countP (fun pr => pr.1 == n)) = 1 ∧
    pyLookup (set_property ((set_property ld n v1).1) n
        v2).1.new_properties n = some v2 := by
  have hprops : (set_property ((set_property ld n v1).1) n
      v2).1.new_properties = upsert (upsert ld.new_properties n v1) n v2 := by
    simp [set_property, h1, h2]
  rw [hprops]
  refine ⟨?_, pyLookup_upsert_self _ n v2⟩
  have hc0 := countP_key_le_one_of_nodup ld.new_properties n hnd
  rw [countP_upsert, countP_upsert]
  split_ifs <;> omega

/-- Witness for C7: `set_property('x', 500)` then `set_property('x',
'hello')` on a fresh context leaves one entry for 'x', valued 'hello'. -/
theorem set_property_last_write_wins_witness :
    isScalarValue (PyValue.int 500) = true ∧
    isScalarValue (PyValue.str "hello") = true ∧
    (((get_locus_data sampleDb 153505).new_properties.map
      Prod.fst).Nodup) ∧
    (((set_property ((set_property (get_locus_data sampleDb 153505) ("x")
        (PyValue.int 500)).1) ("x")
        (PyValue.str "hello")).1.new_properties.countP
      (fun pr => pr.1 == "x")) = 1 ∧
    pyLookup (set_property ((set_property (get_locus_data sampleDb 153505)
        ("x") (PyValue.int 500)).1) ("x")
        (PyValue.str "hello")).1.new_properties ("x") =
      some (PyValue.str "hello")) :=
  ⟨rfl, rfl, by simp [get_locus_data],
    set_property_last_write_wins (get_locus_data sampleDb 153505) "x"
      (PyValue.int 500) (PyValue.str "hello") rfl rfl
      (by simp [get_locus_data])⟩

/-! ### Helper lemmas about send_to_stream -/

theorem send_to_stream_new_properties (ld : LocusData) (t : String) :
    (send_to_stream ld t).new_properties = ld.new_properties := by
  rw [send_to_stream]; split <;> rfl

theorem mem_send_to_stream_iff (ld : LocusData) (s' t : String) :
    s' ∈ (send_to_stream ld t).new_streams ↔
      s' ∈ ld.new_streams ∨ s' = t := by
  rw [send_to_stream]; split
  · exact ⟨Or.inl, fun h => h.elim id (fun he => he ▸ ‹t ∈ ld.new_streams›)⟩
  · simp [List.mem_append]

/-! ### C10 -/

/-- C10: for every context whose properties hold numeric `ra` and `dec`,
`in_m31` requests stream 'in_m31' exactly when
`9.934793 < ra < 11.434793` and `40.269065 < dec < 42.269065`, all four
bounds strict, so a point exactly on the box boundary is not sent. -/
theorem in_m31_box_strict (ld : LocusData) (ra dec : ℚ)
    (hra : pyLookup (get_properties ld) ("ra") = some (PyValue.float ra))
    (hdec : pyLookup (get_properties ld) ("dec") = some (PyValue.float dec)) :
    in_m31 ld = Except.ok
      (if 9.934793 < ra ∧ ra < 11.434793 ∧ 40.269065 < dec ∧ dec < 42.269065
        then send_to_stream ld ("in_m31") else ld) ∧
    ("in_m31" ∉ ld.new_streams →
      ∀ ld', in_m31 ld = Except.ok ld' →
        (("in_m31" ∈ ld'.new_streams) ↔
          (9.934793 < ra ∧ ra < 11.434793 ∧ 40.269065 < dec ∧
            dec < 42.269065))) := by
  have hmain : in_m31 ld = Except.ok
      (if 9.934793 < ra ∧ ra < 11.434793 ∧ 40.269065 < dec ∧ dec < 42.269065
        then send_to_stream ld ("in_m31") else ld) := by
    simp only [in_m31, pyGetItem, hra, hdec, pyLt, toNum, Bind.bind,
      Except.bind, Pure.pure, Except.pure]
    by_cases h1 : ra < 11.434793 <;> by_cases h2 : 9.934793 < ra <;>
      by_cases h3 : dec < 42.269065 <;> by_cases h4 : 40.269065 < dec <;>
      simp [h1, h2, h3, h4]
  refine ⟨hmain, ?_⟩
  intro hnot ld' heq
  rw [hmain] at heq
  cases heq
  by_cases hcond : 9.934793 < ra ∧ ra < 11.434793 ∧ 40.269065 < dec ∧
      dec < 42.269065
  · simp [hcond, send_to_stream, hnot]
  · simp [hcond, hnot]

/-- A fresh execution context holding just the given properties on its
current measurement, used to exercise the science filters. -/
def propsContext (fields : List (String × PyValue)) : LocusData :=
  { current := { alert_id := 0, mjd := 0, fields := fields },
    history := [], catalog_matches := [], new_properties := [],
    new_streams := [] }

/-- Witness for C10 at the center of the M31 box: the stream is
requested. -/
theorem in_m31_box_strict_witness :
    pyLookup (get_properties (propsContext
        [("ra", PyValue.float 10.684793), ("dec", PyValue.float 41.269065)]))
        ("ra") = some (PyValue.float 10.684793) ∧
    pyLookup (get_properties (propsContext
        [("ra", PyValue.float 10.684793), ("dec", PyValue.float 41.269065)]))
        ("dec") = some (PyValue.float 41.269065) ∧
    (in_m31 (propsContext
        [("ra", PyValue.float 10.684793), ("dec", PyValue.float 41.269065)]) =
      Except.ok
        (if 9.934793 < (10.684793 : ℚ) ∧ (10.684793 : ℚ) < 11.434793 ∧
            40.269065 < (41.269065 : ℚ) ∧ (41.269065 : ℚ) < 42.269065
          then send_to_stream (propsContext
            [("ra", PyValue.float 10.684793),
              ("dec", PyValue.float 41.269065)]) ("in_m31")
          else propsContext
            [("ra", PyValue.float 10.684793),
              ("dec", PyValue.float 41.269065)]) ∧
    ("in_m31" ∉ (propsContext
        [("ra", PyValue.float 10.684793),
          ("dec", PyValue.float 41.269065)]).new_streams →
      ∀ ld', in_m31 (propsContext
          [("ra", PyValue.float 10.684793),
            ("dec", PyValue.float 41.269065)]) = Except.ok ld' →
        (("in_m31" ∈ ld'.new_streams) ↔
          (9.934793 < (10.684793 : ℚ) ∧ (10.684793 : ℚ) < 11.434793 ∧
            40.269065 < (41.269065 : ℚ) ∧
            (41.269065 : ℚ) < 42.269065)))) :=
  ⟨rfl, rfl, in_m31_box_strict (propsContext
    [("ra", PyValue.float 10.684793), ("dec", PyValue.float 41.269065)])
    10.684793 41.269065 rfl rfl⟩

/-! ### C8 -/

/-- C8: for every context whose properties hold an integer `ztf_fid` and
a non-zero numeric `ztf_sigmapsf`, `high_snr` succeeds, never sets a
property, and requests stream 'high_snr' exactly when `ztf_fid` is 1 and
`1.0 / ztf_sigmapsf > 50.0`, or `ztf_fid` is 2 and
`1.0 / ztf_sigmapsf > 55.0`; any other `ztf_fid` requests nothing. -/
theorem high_snr_threshold (ld : LocusData) (fid : Int) (s : ℚ)
    (hfid : pyLookup (get_properties ld) ("ztf_fid") =
      some (PyValue.int fid))
    (hs : pyLookup (get_properties ld) ("ztf_sigmapsf") =
      some (PyValue.float s))
    (hnz : s ≠ 0) :
    high_snr ld = Except.ok
      (if (fid = 1 ∧ 1 / s > 50) ∨ (fid = 2 ∧ 1 / s > 55)
        then send_to_stream ld ("high_snr") else ld) ∧
    (∀ ld', high_snr ld = Except.ok ld' →
      ld'.new_properties = ld.new_properties) ∧
    ("high_snr" ∉ ld.new_streams →
      ∀ ld', high_snr ld = Except.ok ld' →
        (("high_snr" ∈ ld'.new_streams) ↔
          ((fid = 1 ∧ 1 / s > 50) ∨ (fid = 2 ∧ 1 / s > 55)))) := by
  have hcast1 : ((fid : ℚ) = 1) ↔ fid = 1 := by exact_mod_cast Iff.rfl
  have hcast2 : ((fid : ℚ) = 2) ↔ fid = 2 := by exact_mod_cast Iff.rfl
  have hmain : high_snr ld = Except.ok
      (if (fid = 1 ∧ 1 / s > 50) ∨ (fid = 2 ∧ 1 / s > 55)
        then send_to_stream ld ("high_snr") else ld) := by
    simp only [high_snr, pyGetItem, hfid, hs, pyDiv, toNum, hnz, if_false,
      snr_thresholds_get, Bind.bind, Except.bind, Pure.pure, Except.pure]
    by_cases hf1 : fid = 1
    · subst hf1
      simp [one_div]
      split <;> rfl
    · by_cases hf2 : fid = 2
      · subst hf2
        simp [one_div]
        split <;> rfl
      · have c1 : ¬((fid : ℚ) = 1) := by exact_mod_cast hf1
        have c2 : ¬((fid : ℚ) = 2) := by exact_mod_cast hf2
        simp [c1, c2, hf1, hf2]
  refine ⟨hmain, ?_, ?_⟩
  · intro ld' heq
    rw [hmain] at heq
    cases heq
    split
    · exact send_to_stream_new_properties ld _
    · rfl
  · intro hnot ld' heq
    rw [hmain] at heq
    cases heq
    by_cases hcond : (fid = 1 ∧ 1 / s > 50) ∨ (fid = 2 ∧ 1 / s > 55)
    · rw [if_pos hcond]
      exact iff_of_true ((mem_send_to_stream_iff ld _ _).mpr (Or.inr rfl))
        hcond
    · rw [if_neg hcond]
      exact iff_of_false hnot hcond

/-- Witness for C8: passband 1 with `ztf_sigmapsf = 0.01`, so
`snr = 100 > 50`: the stream is requested. -/
theorem high_snr_threshold_witness :
    pyLookup (get_properties (propsContext
        [("ztf_fid", PyValue.int 1), ("ztf_sigmapsf", PyValue.float 0.01)]))
        ("ztf_fid") = some (PyValue.int 1) ∧
    pyLookup (get_properties (propsContext
        [("ztf_fid", PyValue.int 1), ("ztf_sigmapsf", PyValue.float 0.01)]))
        ("ztf_sigmapsf") = some (PyValue.float 0.01) ∧
    (0.01 : ℚ) ≠ 0 ∧
    high_snr (propsContext
        [("ztf_fid", PyValue.int 1),
          ("ztf_sigmapsf", PyValue.float 0.01)]) =
      Except.ok
        (if ((1 : Int) = 1 ∧ 1 / (0.01 : ℚ) > 50) ∨
            ((1 : Int) = 2 ∧ 1 / (0.01 : ℚ) > 55)
          then send_to_stream (propsContext
            [("ztf_fid", PyValue.int 1),
              ("ztf_sigmapsf", PyValue.float 0.01)]) ("high_snr")
          else propsContext
            [("ztf_fid", PyValue.int 1),
              ("ztf_sigmapsf", PyValue.float 0.01)]) :=
  ⟨rfl, rfl, by norm_num,
    (high_snr_threshold (propsContext
      [("ztf_fid", PyValue.int 1), ("ztf_sigmapsf", PyValue.float 0.01)])
      1 0.01 rfl rfl (by norm_num)).1⟩

/-! ### C9 -/

/-- Python value of an optional numeric property: `None` when absent. -/
def optFloat : Option ℚ → PyValue
  | some q => PyValue.float q
  | Option.none => PyValue.pynone

/-- The selection criteria of the `nuclear_transient` filter over the
five looked-up property values: all five non-None and
`distnr < 0.6 ∧ distpsnr < 1.0 ∧ sgscore < 0.3 ∧ magpsf - magnr < 1.5`.
-/
def ntCriteria (dn dp sg mp mn : Option ℚ) : Bool :=
  match dn, dp, sg, mp, mn with
  | some q1, some q2, some q3, some q4, some q5 =>
      decide (q1 < 0.6) && decide (q2 < 1) && decide (q3 < 0.3) &&
        decide (q4 - q5 < 1.5)
  | _, _, _, _, _ => false

/-- C9: for every context whose properties hold the five
`nuclear_transient` inputs, each either numeric or None, the filter
succeeds and requests stream 'nuclear_transient' exactly when all five
are non-None with `ztf_distnr < 0.6`, `ztf_distpsnr1 < 1.0`,
`ztf_sgscore1 < 0.3` and `ztf_magpsf - ztf_magnr < 1.5`; when any of the
five is None it returns without requesting any stream. -/
theorem nuclear_transient_criteria (ld : LocusData)
    (vdistnr vdistpsnr vsgscore vmagpsf vmagnr : Option ℚ)
    (hsg : pyLookup (get_properties ld) ("ztf_sgscore1") =
      some (optFloat vsgscore))
    (hdp : pyLookup (get_properties ld) ("ztf_distpsnr1") =
      some (optFloat vdistpsnr))
    (hmp : pyLookup (get_properties ld) ("ztf_magpsf") =
      some (optFloat vmagpsf))
    (hmn : pyLookup (get_properties ld) ("ztf_magnr") =
      some (optFloat vmagnr))
    (hdn : pyLookup (get_properties ld) ("ztf_distnr") =
      some (optFloat vdistnr)) :
    nuclear_transient ld = Except.ok
      (if ntCriteria vdistnr vdistpsnr vsgscore vmagpsf vmagnr
        then send_to_stream ld ("nuclear_transient") else ld) ∧
    (ntCriteria vdistnr vdistpsnr vsgscore vmagpsf vmagnr = true ↔
      (∃ q1 q2 q3 q4 q5, vdistnr = some q1 ∧ vdistpsnr = some q2 ∧
        vsgscore = some q3 ∧ vmagpsf = some q4 ∧ vmagnr = some q5 ∧
        q1 < 0.6 ∧ q2 < 1 ∧ q3 < 0.3 ∧ q4 - q5 < 1.5)) ∧
    ("nuclear_transient" ∉ ld.new_streams →
      ∀ ld', nuclear_transient ld = Except.ok ld' →
        (("nuclear_transient" ∈ ld'.new_streams) ↔
          ntCriteria vdistnr vdistpsnr vsgscore vmagpsf vmagnr = true)) := by
  have hmain : nuclear_transient ld = Except.ok
      (if ntCriteria vdistnr vdistpsnr vsgscore vmagpsf vmagnr
        then send_to_stream ld ("nuclear_transient") else ld) := by
    simp only [nuclear_transient, pyGetItem, hsg, hdp, hmp, hmn, hdn,
      Bind.bind, Except.bind, Pure.pure, Except.pure]
    cases vdistnr with
    | none => simp [optFloat, ntCriteria]
    | some q1 =>
        cases vdistpsnr with
        | none => simp [optFloat, ntCriteria]
        | some q2 =>
            cases vsgscore with
            | none => simp [optFloat, ntCriteria]
            | some q3 =>
                cases vmagpsf with
                | none => simp [optFloat, ntCriteria]
                | some q4 =>
                    cases vmagnr with
                    | none => simp [optFloat, ntCriteria]
                    | some q5 =>
                        by_cases b1 : q1 < 0.6 <;> by_cases b2 : q2 < 1 <;>
                          by_cases b3 : q3 < 0.3 <;>
                          by_cases b4 : q4 - q5 < 1.5 <;>
                          simp [optFloat, ntCriteria, pyLt, toNum, pySub,
                            b1, b2, b3, b4]
  refine ⟨hmain, ?_, ?_⟩
  · cases vdistnr <;> cases vdistpsnr <;> cases vsgscore <;>
      cases vmagpsf <;> cases vmagnr <;> simp [ntCriteria, and_assoc]
  · intro hnot ld' heq
    rw [hmain] at heq
    cases heq
    by_cases hcrit : ntCriteria vdistnr vdistpsnr vsgscore vmagpsf vmagnr =
        true
    · rw [if_pos hcrit]
      exact iff_of_true ((mem_send_to_stream_iff ld _ _).mpr (Or.inr rfl))
        hcrit
    · rw [if_neg (by simpa using hcrit)]
      exact iff_of_false hnot hcrit

/-- Witness for C9 at a passing input: all five properties present with
`distnr = 0.5 < 0.6`, `distpsnr = 0.5 < 1`, `sgscore = 0.2 < 0.3`,
`magpsf - magnr = 18 - 17 = 1 < 1.5`. -/
theorem nuclear_transient_criteria_witness :
    pyLookup (get_properties (propsContext
        [("ztf_sgscore1", PyValue.float 0.2),
          ("ztf_distpsnr1", PyValue.float 0.5),
          ("ztf_magpsf", PyValue.float 18),
          ("ztf_magnr", PyValue.float 17),
          ("ztf_distnr", PyValue.float 0.5)]))
        ("ztf_sgscore1") = some (optFloat (some 0.2)) ∧
    nuclear_transient (propsContext
        [("ztf_sgscore1", PyValue.float 0.2),
          ("ztf_distpsnr1", PyValue.float 0.5),
          ("ztf_magpsf", PyValue.float 18),
          ("ztf_magnr", PyValue.float 17),
          ("ztf_distnr", PyValue.float 0.5)]) =
      Except.ok
        (if ntCriteria (some 0.5) (some 0.5) (some 0.2) (some 18) (some 17)
          then send_to_stream (propsContext
            [("ztf_sgscore1", PyValue.float 0.2),
              ("ztf_distpsnr1", PyValue.float 0.5),
              ("ztf_magpsf", PyValue.float 18),
              ("ztf_magnr", PyValue.float 17),
              ("ztf_distnr", PyValue.float 0.5)]) ("nuclear_transient")
          else propsContext
            [("ztf_sgscore1", PyValue.float 0.2),
              ("ztf_distpsnr1", PyValue.float 0.5),
              ("ztf_magpsf", PyValue.float 18),
              ("ztf_magnr", PyValue.float 17),
              ("ztf_distnr", PyValue.float 0.5)]) ∧
    ntCriteria (some 0.5) (some 0.5) (some 0.2) (some 18) (some 17) =
      true :=
  ⟨rfl,
    (nuclear_transient_criteria (propsContext
      [("ztf_sgscore1", PyValue.float 0.2),
        ("ztf_distpsnr1", PyValue.float 0.5),
        ("ztf_magpsf", PyValue.float 18),
        ("ztf_magnr", PyValue.float 17),
        ("ztf_distnr", PyValue.float 0.5)])
      (some 0.5) (some 0.5) (some 0.2) (some 18) (some 17)
      rfl rfl rfl rfl rfl).1,
    by norm_num [ntCriteria]⟩

end AntaresDevKit
